import Mathlib

/-!
Shallow embedding of fasterwhisper_googletrans_server.py: the POST /transcribe
request pipeline, the startup capability probe, and the main startup/shutdown
sequence. External collaborators (faster-whisper, googletrans, the WSGI
servers) are modelled as oracles supplying their results, per the interfaces
the orchestration layer consumes.
-/

/-- A JSON value, as produced by flask.jsonify in the responses. -/
inductive Json where
  | null : Json
  | str : String → Json
  | num : Rat → Json
  | arr : List Json → Json
  | obj : List (String × Json) → Json

/-- Field lookup in a JSON object (none on non-objects or missing keys). -/
def Json.lookup : Json → String → Option Json
  | .obj fields, k => fields.lookup k
  | _, _ => none

/-- One transcription segment: fields start, end, text of the engine output.
The source field named end is embedded as stop (end is a Lean keyword). -/
structure Segment where
  start : Rat
  stop : Rat
  text : String

/-- The info object returned by the transcription engine, as consumed by
getattr(info, "language", from_language): the language attribute is either
absent (none) or present with a possibly-None string value. -/
structure TransInfo where
  language_attr : Option (Option String)

/-- A Python exception as consumed by the handlers: details is str(e) and
trace is traceback.format_exc(). -/
structure PyExc where
  details : String
  trace : String

/-- Outcome of the temp-file save block (lines 93-101). failCreate: the
NamedTemporaryFile call itself raised, so no file was created on disk.
failWrite: the file was created (delete=False creates it immediately) and
audio_file.save raised afterwards. -/
inductive SaveOutcome where
  | ok : SaveOutcome
  | failCreate : PyExc → SaveOutcome
  | failWrite : PyExc → SaveOutcome

/-- Oracle for the external effects one POST request observes: the save
outcome, the fresh name chosen by NamedTemporaryFile, and the results of
batched_model.transcribe and of the googletrans call. -/
structure Backend where
  save : SaveOutcome
  tmpName : String
  transcribeResult : Except PyExc (List Segment × TransInfo)
  translateResult : Except PyExc String

/-- The POST form data: whether audio_file is among request.files, and the
from_language / to_language form fields (none when the field is absent,
some "" when present but empty). -/
structure PostRequest where
  hasAudioFile : Bool
  from_language : Option String
  to_language : Option String

/-- Python truthiness of an optional string: None and "" are falsy. -/
def pyTruthy : Option String → Bool
  | none => false
  | some s => !s.isEmpty

/-- detected_language = getattr(info, "language", from_language): the value of
the language attribute when present, otherwise the from_language hint. -/
def detectedLanguageOf (info : TransInfo) (from_language : Option String) :
    Option String :=
  match info.language_attr with
  | some v => v
  | none => from_language

/-- from_lang_google = detected_language if detected_language else "auto". -/
def srcOrAuto (detected : Option String) : String :=
  match detected with
  | some s => if s.isEmpty then "auto" else s
  | none => "auto"

/-- JSON encoding of an optional string field value. -/
def optStrJson : Option String → Json
  | none => Json.null
  | some s => Json.str s

/-- The per-segment dictionary built at lines 107-110. -/
def segmentJson (s : Segment) : Json :=
  Json.obj [("start", Json.num s.start), ("end", Json.num s.stop),
            ("text", Json.str s.text)]

/-- The finally block at lines 128-133: os.remove(tmp_filename) with any
exception swallowed. If os.remove raises, the filesystem keeps the file;
otherwise the file is removed. -/
def osRemoveSwallowed (fs : List String) (tmpName : String)
    (removeRaises : Bool) : List String :=
  if removeRaises then fs else fs.erase tmpName

/-- Result of one POST /transcribe request: HTTP status, JSON body, the
filesystem state after the request, how many temporary files were created,
how many times the translation client was invoked, and the source-language
argument passed to it (when invoked). -/
structure HandlerResult where
  status : Nat
  body : Json
  fs : List String
  tmpCreated : Nat
  translateCalls : Nat
  translateSrcArg : Option String

/-- The POST branch of transcribe() (lines 85-142), with the filesystem
modelled as the list of existing file names and removeRaises modelling
whether os.remove raises in the finally block. -/
def transcribePost (req : PostRequest) (b : Backend) (removeRaises : Bool)
    (fs : List String) : HandlerResult :=
  if !req.hasAudioFile then
    ⟨400, Json.obj [("error",
        Json.str "audio_file is not included in the request")],
      fs, 0, 0, none⟩
  else
    match b.save with
    | .failCreate e =>
        ⟨500, Json.obj [("error",
            Json.str "Failed to temporarily save the audio file"),
            ("details", Json.str e.details)],
          fs, 0, 0, none⟩
    | .failWrite e =>
        ⟨500, Json.obj [("error",
            Json.str "Failed to temporarily save the audio file"),
            ("details", Json.str e.details)],
          b.tmpName :: fs, 1, 0, none⟩
    | .ok =>
      let fs1 := b.tmpName :: fs
      match b.transcribeResult with
      | .error e =>
          ⟨500, Json.obj [("error",
              Json.str "Failed to process transcription"),
              ("details", Json.str e.details),
              ("trace", Json.str e.trace)],
            osRemoveSwallowed fs1 b.tmpName removeRaises, 1, 0, none⟩
      | .ok (segs, info) =>
        let full_text := String.join (segs.map Segment.text)
        let segments_list := Json.arr (segs.map segmentJson)
        let detected_language := detectedLanguageOf info req.from_language
        if pyTruthy req.to_language then
          let from_lang_google := srcOrAuto detected_language
          match b.translateResult with
          | .error e =>
              ⟨500, Json.obj [("error",
                  Json.str "Failed to process transcription"),
                  ("details", Json.str e.details),
                  ("trace", Json.str e.trace)],
                osRemoveSwallowed fs1 b.tmpName removeRaises, 1, 1,
                some from_lang_google⟩
          | .ok t =>
              ⟨200, Json.obj [("transcript_text", Json.str full_text),
                  ("translated_text", Json.str t),
                  ("segments", segments_list),
                  ("language", optStrJson detected_language)],
                osRemoveSwallowed fs1 b.tmpName removeRaises, 1, 1,
                some from_lang_google⟩
        else
          ⟨200, Json.obj [("transcript_text", Json.str full_text),
              ("translated_text", Json.null),
              ("segments", segments_list),
              ("language", optStrJson detected_language)],
            osRemoveSwallowed fs1 b.tmpName removeRaises, 1, 0, none⟩

/-- The host environment seen by is_cuda_available: the sys.platform check and
the outcome of ctypes.windll.kernel32.LoadLibraryW("nvcuda.dll") — none when
that call raises OSError, some h when it returns handle h. -/
structure Host where
  is_win32 : Bool
  nvcuda : Option Nat

/-- is_cuda_available (lines 30-37): false off win32; on win32, bool of the
LoadLibraryW result, and false when the call raises OSError. -/
def is_cuda_available (host : Host) : Bool :=
  if !host.is_win32 then false
  else
    match host.nvcuda with
    | none => false
    | some h => h != 0

/-- The startup assignments MODEL_NAME (line 39) and DEVICE (line 40), each of
which evaluates is_cuda_available() in its own conditional expression. The
returned Nat counts how many times the probe is invoked. -/
def startupConfig (host : Host) : (String × String) × Nat :=
  let calls1 := 1
  let modelName := if is_cuda_available host then "large-v3-turbo" else "tiny"
  let calls2 := calls1 + 1
  let device := if is_cuda_available host then "cuda" else "cpu"
  ((modelName, device), calls2)

/-- Where an exception is raised inside the startup try block (lines 176-190):
at the HTTPS WSGIServer construction, at http_server.start, or at
https_server.start. -/
inductive StartupStep where
  | httpsConstruct : StartupStep
  | httpStart : StartupStep
  | httpsStart : StartupStep

/-- Which exception class the startup fault carries. -/
inductive StartupExcKind where
  | sslError : StartupExcKind
  | otherExc : StartupExcKind

/-- Names bound at module level by the import statements of the source file
(lines 8-26). The name ssl is not among them. -/
def moduleImports : List String :=
  ["os", "sys", "tempfile", "traceback", "asyncio", "ctypes", "flask",
   "faster_whisper", "googletrans", "gevent", "datetime"]

/-- Whether the name ssl is bound when the handler clause at line 192
evaluates ssl.SSLError. -/
def sslImported : Bool := moduleImports.contains "ssl"

/-- The environment the main block runs in: the first fault raised inside the
startup try block (if any), and whether a KeyboardInterrupt arrives during
gevent.wait(). -/
structure MainWorld where
  fault : Option (StartupStep × StartupExcKind)
  interrupt : Bool

/-- Observable outcome of the main block: which listeners were started,
which except branch logged, whether the process-wide excepthook appended to
error.log, the servers stopped (in order), and the exit status (none while
still running). -/
structure MainOutcome where
  httpStarted : Bool
  httpsStarted : Bool
  sslBranchLogged : Bool
  genericBranchLogged : Bool
  excepthookLogged : Bool
  stopped : List String
  exitStatus : Option Nat

/-- Handling of an exception escaping the startup try block. Python evaluates
the clause except ssl.SSLError first: when ssl is unbound this evaluation
itself raises NameError, no handler (including except Exception) runs, and
the uncaught NameError reaches sys.excepthook, which appends to error.log and
calls sys.exit(1). When ssl is bound, the matching branch logs and execution
falls through to gevent.wait(). -/
def startupFailure (httpStarted httpsStarted : Bool) (k : StartupExcKind) :
    MainOutcome :=
  if sslImported then
    match k with
    | .sslError => ⟨httpStarted, httpsStarted, true, false, false, [], none⟩
    | .otherExc => ⟨httpStarted, httpsStarted, false, true, false, [], none⟩
  else
    ⟨httpStarted, httpsStarted, false, false, true, [], some 1⟩

/-- The main block (lines 166-207): construct the HTTP server, then inside a
try block construct the HTTPS server, start HTTP, start HTTPS; on success
wait, and on KeyboardInterrupt stop HTTP then HTTPS and exit 0. A fault at a
step leaves the earlier steps done and the later ones not reached. -/
def runMain (w : MainWorld) : MainOutcome :=
  match w.fault with
  | some (.httpsConstruct, k) => startupFailure false false k
  | some (.httpStart, k) => startupFailure false false k
  | some (.httpsStart, k) => startupFailure true false k
  | none =>
      if w.interrupt then
        ⟨true, true, false, false, false, ["http", "https"], some 0⟩
      else
        ⟨true, true, false, false, false, [], none⟩

/-- The text field of a segment dictionary in a response body. -/
def segTextOf (j : Json) : Option String :=
  match j.lookup "text" with
  | some (.str s) => some s
  | _ => none

/-- The list of text fields of the segments array of a response body, in
order; none when the body has no segments array or an entry lacks text. -/
def segmentTexts (body : Json) : Option (List String) :=
  match body.lookup "segments" with
  | some (.arr xs) => xs.mapM segTextOf
  | _ => none

/-- C5: a POST /transcribe request whose multipart form contains no audio_file
field gets status 400 with body exactly the single error message, and the
body has no trace field. -/
theorem C5_missing_audio_file_400 (req : PostRequest) (b : Backend)
    (removeRaises : Bool) (fs : List String)
    (h : req.hasAudioFile = false) :
    (transcribePost req b removeRaises fs).status = 400 ∧
    (transcribePost req b removeRaises fs).body =
      Json.obj [("error",
        Json.str "audio_file is not included in the request")] ∧
    Json.lookup (transcribePost req b removeRaises fs).body "trace" = none := by
  obtain ⟨a, fl, tl⟩ := req
  simp only [PostRequest.hasAudioFile] at h
  subst h
  exact ⟨rfl, rfl, rfl⟩

/-- Witness for C5 at a concrete request with no audio_file field. -/
theorem C5_missing_audio_file_400_witness :
    (transcribePost ⟨false, none, none⟩
        ⟨.ok, "t.mp3", .ok ([], ⟨none⟩), .ok "x"⟩ false []).status = 400 ∧
    (transcribePost ⟨false, none, none⟩
        ⟨.ok, "t.mp3", .ok ([], ⟨none⟩), .ok "x"⟩ false []).body =
      Json.obj [("error",
        Json.str "audio_file is not included in the request")] ∧
    Json.lookup (transcribePost ⟨false, none, none⟩
        ⟨.ok, "t.mp3", .ok ([], ⟨none⟩), .ok "x"⟩ false []).body "trace" =
      none :=
  C5_missing_audio_file_400 ⟨false, none, none⟩
    ⟨.ok, "t.mp3", .ok ([], ⟨none⟩), .ok "x"⟩ false [] rfl

/-- C10: the missing-audio_file 400 response is produced before any temporary
file is created, so the filesystem state is unchanged. -/
theorem C10_missing_audio_file_no_tmp (req : PostRequest) (b : Backend)
    (removeRaises : Bool) (fs : List String)
    (h : req.hasAudioFile = false) :
    (transcribePost req b removeRaises fs).status = 400 ∧
    (transcribePost req b removeRaises fs).fs = fs ∧
    (transcribePost req b removeRaises fs).tmpCreated = 0 := by
  obtain ⟨a, fl, tl⟩ := req
  simp only [PostRequest.hasAudioFile] at h
  subst h
  exact ⟨rfl, rfl, rfl⟩

/-- Witness for C10 at a concrete request with no audio_file field. -/
theorem C10_missing_audio_file_no_tmp_witness :
    (transcribePost ⟨false, some "en", none⟩
        ⟨.ok, "u.mp3", .ok ([], ⟨none⟩), .ok "x"⟩ false ["keep.txt"]).status
      = 400 ∧
    (transcribePost ⟨false, some "en", none⟩
        ⟨.ok, "u.mp3", .ok ([], ⟨none⟩), .ok "x"⟩ false ["keep.txt"]).fs
      = ["keep.txt"] ∧
    (transcribePost ⟨false, some "en", none⟩
        ⟨.ok, "u.mp3", .ok ([], ⟨none⟩), .ok "x"⟩ false
        ["keep.txt"]).tmpCreated = 0 :=
  C10_missing_audio_file_no_tmp ⟨false, some "en", none⟩
    ⟨.ok, "u.mp3", .ok ([], ⟨none⟩), .ok "x"⟩ false ["keep.txt"] rfl

/-- C1 counterexample: when audio_file.save raises after the temporary file
was created (SaveOutcome.failWrite), the request completes with a 500
response but the temporary file is still on the filesystem — the deletion
is not on this exit path, refuting deletion on every exit path. -/
theorem C1_counterexample_save_failure_leaks :
    (transcribePost ⟨true, none, none⟩
        ⟨.failWrite ⟨"disk full", "tb"⟩, "tmp_c1.mp3",
          .error ⟨"x", "y"⟩, .error ⟨"x", "y"⟩⟩ false []).status = 500 ∧
    (transcribePost ⟨true, none, none⟩
        ⟨.failWrite ⟨"disk full", "tb"⟩, "tmp_c1.mp3",
          .error ⟨"x", "y"⟩, .error ⟨"x", "y"⟩⟩ false []).tmpCreated = 1 ∧
    (transcribePost ⟨true, none, none⟩
        ⟨.failWrite ⟨"disk full", "tb"⟩, "tmp_c1.mp3",
          .error ⟨"x", "y"⟩, .error ⟨"x", "y"⟩⟩ false []).fs
      = ["tmp_c1.mp3"] :=
  ⟨rfl, rfl, rfl⟩

/-- C1 amended: once the save block succeeds, the temporary file is deleted
on every later exit path (success, transcription failure, translation
failure) when the deletion does not itself raise, and a failure of the
deletion is swallowed: the status and body of the response do not depend on
whether os.remove raises. -/
theorem C1_amended_cleanup (req : PostRequest) (b : Backend)
    (fs : List String) (hsave : b.save = .ok) :
    (transcribePost req b false fs).fs = fs ∧
    ∀ r1 r2 : Bool,
      (transcribePost req b r1 fs).status =
        (transcribePost req b r2 fs).status ∧
      (transcribePost req b r1 fs).body =
        (transcribePost req b r2 fs).body := by
  constructor
  · cases hA : req.hasAudioFile
    · simp [transcribePost, hA]
    · cases htr : b.transcribeResult with
      | error e =>
          simp [transcribePost, hA, hsave, htr, osRemoveSwallowed]
      | ok p =>
          obtain ⟨segs, info⟩ := p
          cases hto : pyTruthy req.to_language
          · simp [transcribePost, hA, hsave, htr, hto, osRemoveSwallowed]
          · cases htl : b.translateResult with
            | error e =>
                simp [transcribePost, hA, hsave, htr, hto, htl,
                  osRemoveSwallowed]
            | ok t =>
                simp [transcribePost, hA, hsave, htr, hto, htl,
                  osRemoveSwallowed]
  · intro r1 r2
    cases hA : req.hasAudioFile
    · simp [transcribePost, hA]
    · cases htr : b.transcribeResult with
      | error e =>
          simp [transcribePost, hA, hsave, htr]
      | ok p =>
          obtain ⟨segs, info⟩ := p
          cases hto : pyTruthy req.to_language
          · simp [transcribePost, hA, hsave, htr, hto]
          · cases htl : b.translateResult with
            | error e => simp [transcribePost, hA, hsave, htr, hto, htl]
            | ok t => simp [transcribePost, hA, hsave, htr, hto, htl]

/-- Witness for C1 amended at a concrete request whose save succeeds. -/
theorem C1_amended_cleanup_witness :
    (transcribePost ⟨true, none, none⟩
        ⟨.ok, "tmp_w1.mp3", .ok ([], ⟨none⟩), .ok "x"⟩ false []).fs
      = ([] : List String) ∧
    (transcribePost ⟨true, none, none⟩
        ⟨.ok, "tmp_w1.mp3", .ok ([], ⟨none⟩), .ok "x"⟩ true []).status =
      (transcribePost ⟨true, none, none⟩
        ⟨.ok, "tmp_w1.mp3", .ok ([], ⟨none⟩), .ok "x"⟩ false []).status :=
  ⟨(C1_amended_cleanup ⟨true, none, none⟩
      ⟨.ok, "tmp_w1.mp3", .ok ([], ⟨none⟩), .ok "x"⟩ [] rfl).1,
   ((C1_amended_cleanup ⟨true, none, none⟩
      ⟨.ok, "tmp_w1.mp3", .ok ([], ⟨none⟩), .ok "x"⟩ [] rfl).2 true false).1⟩

/-- C6 counterexample: the capability probe is evaluated twice during the
startup assignments (once for MODEL_NAME, once for DEVICE), not exactly
once. -/
theorem C6_counterexample_probe_called_twice :
    (startupConfig ⟨false, none⟩).2 = 2 ∧
    ¬ (startupConfig ⟨false, none⟩).2 = 1 := by
  exact ⟨rfl, by decide⟩

/-- C6 amended: the probe is evaluated twice, once per assignment, but it is
a pure function of the fixed host environment, so both evaluations agree and
the (model profile, device) pair is always (large-v3-turbo, cuda) or
(tiny, cpu), never a mixture. -/
theorem C6_amended_profile_device_consistent (host : Host) :
    (startupConfig host).2 = 2 ∧
    ((startupConfig host).1 = ("large-v3-turbo", "cuda") ∨
      (startupConfig host).1 = ("tiny", "cpu")) := by
  cases h : is_cuda_available host <;> simp [startupConfig, h]

/-- C8: with no startup fault, a KeyboardInterrupt during gevent.wait stops
the HTTP listener then the HTTPS listener and the process exits with
status 0. -/
theorem C8_interrupt_clean_shutdown :
    runMain ⟨none, true⟩ =
      ⟨true, true, false, false, false, ["http", "https"], some 0⟩ := rfl

/-- C4: evaluation of the code at the claimed scenario. When the HTTPS
server construction raises an SSL error, the plaintext listener is never
started (http_server.start comes later in the same try block), the
except-ssl branch does not log (the name ssl is unbound, so matching the
clause raises NameError), the process-wide excepthook writes error.log, and
the process exits with status 1 — contradicting the claim that the failure
is logged and the plaintext listener serves on. -/
theorem C4_tls_failure_kills_startup :
    (runMain ⟨some (.httpsConstruct, .sslError), false⟩).httpStarted
      = false ∧
    (runMain ⟨some (.httpsConstruct, .sslError), false⟩).sslBranchLogged
      = false ∧
    (runMain ⟨some (.httpsConstruct, .sslError), false⟩).excepthookLogged
      = true ∧
    (runMain ⟨some (.httpsConstruct, .sslError), false⟩).exitStatus
      = some 1 :=
  ⟨rfl, rfl, rfl, rfl⟩

/-- Reduction of the pipeline when NamedTemporaryFile itself raises. -/
theorem transcribePost_save_failCreate (fl tl : Option String) (b : Backend)
    (removeRaises : Bool) (fs : List String) (e : PyExc)
    (hs : b.save = .failCreate e) :
    transcribePost ⟨true, fl, tl⟩ b removeRaises fs =
      ⟨500, Json.obj [("error",
          Json.str "Failed to temporarily save the audio file"),
          ("details", Json.str e.details)],
        fs, 0, 0, none⟩ := by
  simp [transcribePost, hs]

/-- Reduction of the pipeline when audio_file.save raises after the
temporary file was created. -/
theorem transcribePost_save_failWrite (fl tl : Option String) (b : Backend)
    (removeRaises : Bool) (fs : List String) (e : PyExc)
    (hs : b.save = .failWrite e) :
    transcribePost ⟨true, fl, tl⟩ b removeRaises fs =
      ⟨500, Json.obj [("error",
          Json.str "Failed to temporarily save the audio file"),
          ("details", Json.str e.details)],
        b.tmpName :: fs, 1, 0, none⟩ := by
  simp [transcribePost, hs]

/-- Reduction of the pipeline when the transcription call raises. -/
theorem transcribePost_transcribe_error (fl tl : Option String) (b : Backend)
    (removeRaises : Bool) (fs : List String) (e : PyExc)
    (hs : b.save = .ok) (ht : b.transcribeResult = .error e) :
    transcribePost ⟨true, fl, tl⟩ b removeRaises fs =
      ⟨500, Json.obj [("error", Json.str "Failed to process transcription"),
          ("details", Json.str e.details),
          ("trace", Json.str e.trace)],
        osRemoveSwallowed (b.tmpName :: fs) b.tmpName removeRaises,
        1, 0, none⟩ := by
  simp [transcribePost, hs, ht]

/-- Reduction of the pipeline on a successful transcription with no
translation requested. -/
theorem transcribePost_success_no_translate (fl tl : Option String)
    (b : Backend) (removeRaises : Bool) (fs : List String)
    (segs : List Segment) (info : TransInfo)
    (hs : b.save = .ok) (ht : b.transcribeResult = .ok (segs, info))
    (hto : pyTruthy tl = false) :
    transcribePost ⟨true, fl, tl⟩ b removeRaises fs =
      ⟨200, Json.obj [("transcript_text",
          Json.str (String.join (segs.map Segment.text))),
          ("translated_text", Json.null),
          ("segments", Json.arr (segs.map segmentJson)),
          ("language", optStrJson (detectedLanguageOf info fl))],
        osRemoveSwallowed (b.tmpName :: fs) b.tmpName removeRaises,
        1, 0, none⟩ := by
  simp [transcribePost, hs, ht, hto]

/-- Reduction of the pipeline when translation is requested and the
translation call raises. -/
theorem transcribePost_translate_error (fl tl : Option String) (b : Backend)
    (removeRaises : Bool) (fs : List String)
    (segs : List Segment) (info : TransInfo) (e : PyExc)
    (hs : b.save = .ok) (ht : b.transcribeResult = .ok (segs, info))
    (hto : pyTruthy tl = true) (htl : b.translateResult = .error e) :
    transcribePost ⟨true, fl, tl⟩ b removeRaises fs =
      ⟨500, Json.obj [("error", Json.str "Failed to process transcription"),
          ("details", Json.str e.details),
          ("trace", Json.str e.trace)],
        osRemoveSwallowed (b.tmpName :: fs) b.tmpName removeRaises, 1, 1,
        some (srcOrAuto (detectedLanguageOf info fl))⟩ := by
  simp [transcribePost, hs, ht, hto, htl]

/-- Reduction of the pipeline when translation is requested and succeeds. -/
theorem transcribePost_success_translate (fl tl : Option String)
    (b : Backend) (removeRaises : Bool) (fs : List String)
    (segs : List Segment) (info : TransInfo) (t : String)
    (hs : b.save = .ok) (ht : b.transcribeResult = .ok (segs, info))
    (hto : pyTruthy tl = true) (htl : b.translateResult = .ok t) :
    transcribePost ⟨true, fl, tl⟩ b removeRaises fs =
      ⟨200, Json.obj [("transcript_text",
          Json.str (String.join (segs.map Segment.text))),
          ("translated_text", Json.str t),
          ("segments", Json.arr (segs.map segmentJson)),
          ("language", optStrJson (detectedLanguageOf info fl))],
        osRemoveSwallowed (b.tmpName :: fs) b.tmpName removeRaises, 1, 1,
        some (srcOrAuto (detectedLanguageOf info fl))⟩ := by
  simp [transcribePost, hs, ht, hto, htl]

/-- segTextOf applied to an encoded segment dictionary yields its text. -/
theorem segTextOf_segmentJson (s : Segment) :
    segTextOf (segmentJson s) = some s.text := rfl

/-- Mapping segTextOf over an encoded segments array recovers, in order, the
text fields of the original segments. -/
theorem mapM_segTextOf_map (segs : List Segment) :
    (segs.map segmentJson).mapM segTextOf = some (segs.map Segment.text) := by
  induction segs with
  | nil => rfl
  | cons s t ih =>
      rw [List.map_cons, List.mapM_cons, segTextOf_segmentJson, ih]
      rfl

/-- C2: on a successful POST /transcribe without a truthy to_language, the
response has status 200, translated_text equal to null, and transcript_text
equal to the in-order concatenation of the text fields of the segments array
of the same response. -/
theorem C2_transcript_is_segment_concat (req : PostRequest) (b : Backend)
    (removeRaises : Bool) (fs : List String) (segs : List Segment)
    (info : TransInfo)
    (ha : req.hasAudioFile = true) (hs : b.save = .ok)
    (ht : b.transcribeResult = .ok (segs, info))
    (hto : pyTruthy req.to_language = false) :
    (transcribePost req b removeRaises fs).status = 200 ∧
    Json.lookup (transcribePost req b removeRaises fs).body "translated_text"
      = some Json.null ∧
    ∃ ts, segmentTexts (transcribePost req b removeRaises fs).body = some ts
      ∧ Json.lookup (transcribePost req b removeRaises fs).body
          "transcript_text" = some (Json.str (String.join ts)) := by
  obtain ⟨a, fl, tl⟩ := req
  simp only [PostRequest.hasAudioFile] at ha
  simp only [PostRequest.to_language] at hto
  subst ha
  rw [transcribePost_success_no_translate fl tl b removeRaises fs segs info
    hs ht hto]
  refine ⟨rfl, rfl, segs.map Segment.text, ?_, rfl⟩
  show (segs.map segmentJson).mapM segTextOf = some (segs.map Segment.text)
  exact mapM_segTextOf_map segs

/-- Witness for C2 at a concrete two-segment transcription result. -/
theorem C2_transcript_is_segment_concat_witness :
    (transcribePost ⟨true, none, none⟩
        ⟨.ok, "t2.mp3",
          .ok ([⟨0, 1, "hello"⟩, ⟨1, 2, " world"⟩], ⟨some (some "en")⟩),
          .ok "x"⟩ false []).status = 200 ∧
    Json.lookup (transcribePost ⟨true, none, none⟩
        ⟨.ok, "t2.mp3",
          .ok ([⟨0, 1, "hello"⟩, ⟨1, 2, " world"⟩], ⟨some (some "en")⟩),
          .ok "x"⟩ false []).body "translated_text" = some Json.null :=
  ⟨(C2_transcript_is_segment_concat ⟨true, none, none⟩
      ⟨.ok, "t2.mp3",
        .ok ([⟨0, 1, "hello"⟩, ⟨1, 2, " world"⟩], ⟨some (some "en")⟩),
        .ok "x"⟩ false [] [⟨0, 1, "hello"⟩, ⟨1, 2, " world"⟩]
      ⟨some (some "en")⟩ rfl rfl rfl rfl).1,
   (C2_transcript_is_segment_concat ⟨true, none, none⟩
      ⟨.ok, "t2.mp3",
        .ok ([⟨0, 1, "hello"⟩, ⟨1, 2, " world"⟩], ⟨some (some "en")⟩),
        .ok "x"⟩ false [] [⟨0, 1, "hello"⟩, ⟨1, 2, " world"⟩]
      ⟨some (some "en")⟩ rfl rfl rfl rfl).2.1⟩

/-- C3 counterexample: a failure while saving the upload yields a 500
response whose body has the error and details fields but no trace field,
refuting the claim that every internal failure response carries a
diagnostic trace field. -/
theorem C3_counterexample_save_failure_has_no_trace :
    (transcribePost ⟨true, none, none⟩
        ⟨.failWrite ⟨"write failed", "tb"⟩, "tmp_c3.mp3",
          .error ⟨"x", "y"⟩, .error ⟨"x", "y"⟩⟩ false []).status = 500 ∧
    Json.lookup (transcribePost ⟨true, none, none⟩
        ⟨.failWrite ⟨"write failed", "tb"⟩, "tmp_c3.mp3",
          .error ⟨"x", "y"⟩, .error ⟨"x", "y"⟩⟩ false []).body "error" =
      some (Json.str "Failed to temporarily save the audio file") ∧
    Json.lookup (transcribePost ⟨true, none, none⟩
        ⟨.failWrite ⟨"write failed", "tb"⟩, "tmp_c3.mp3",
          .error ⟨"x", "y"⟩, .error ⟨"x", "y"⟩⟩ false []).body "details" =
      some (Json.str "write failed") ∧
    Json.lookup (transcribePost ⟨true, none, none⟩
        ⟨.failWrite ⟨"write failed", "tb"⟩, "tmp_c3.mp3",
          .error ⟨"x", "y"⟩, .error ⟨"x", "y"⟩⟩ false []).body "trace" =
      none :=
  ⟨rfl, rfl, rfl, rfl⟩

/-- C3 amended: every internal failure yields a 500 response with error and
details fields; transcription and translation failures additionally carry a
trace field, while a failure while saving the upload carries no trace
field. -/
theorem C3_amended_500_bodies (req : PostRequest) (b : Backend)
    (removeRaises : Bool) (fs : List String)
    (ha : req.hasAudioFile = true) :
    (∀ e, b.save = .failCreate e ∨ b.save = .failWrite e →
      (transcribePost req b removeRaises fs).status = 500 ∧
      Json.lookup (transcribePost req b removeRaises fs).body "error" =
        some (Json.str "Failed to temporarily save the audio file") ∧
      Json.lookup (transcribePost req b removeRaises fs).body "details" =
        some (Json.str e.details) ∧
      Json.lookup (transcribePost req b removeRaises fs).body "trace" =
        none) ∧
    (∀ e, b.save = .ok → b.transcribeResult = .error e →
      (transcribePost req b removeRaises fs).status = 500 ∧
      Json.lookup (transcribePost req b removeRaises fs).body "error" =
        some (Json.str "Failed to process transcription") ∧
      Json.lookup (transcribePost req b removeRaises fs).body "details" =
        some (Json.str e.details) ∧
      Json.lookup (transcribePost req b removeRaises fs).body "trace" =
        some (Json.str e.trace)) ∧
    (∀ segs info e, b.save = .ok → b.transcribeResult = .ok (segs, info) →
      pyTruthy req.to_language = true → b.translateResult = .error e →
      (transcribePost req b removeRaises fs).status = 500 ∧
      Json.lookup (transcribePost req b removeRaises fs).body "error" =
        some (Json.str "Failed to process transcription") ∧
      Json.lookup (transcribePost req b removeRaises fs).body "details" =
        some (Json.str e.details) ∧
      Json.lookup (transcribePost req b removeRaises fs).body "trace" =
        some (Json.str e.trace)) := by
  obtain ⟨a, fl, tl⟩ := req
  simp only [PostRequest.hasAudioFile] at ha
  simp only [PostRequest.to_language]
  subst ha
  refine ⟨?_, ?_, ?_⟩
  · intro e hsv
    rcases hsv with hsv | hsv
    · rw [transcribePost_save_failCreate fl tl b removeRaises fs e hsv]
      exact ⟨rfl, rfl, rfl, rfl⟩
    · rw [transcribePost_save_failWrite fl tl b removeRaises fs e hsv]
      exact ⟨rfl, rfl, rfl, rfl⟩
  · intro e hs ht
    rw [transcribePost_transcribe_error fl tl b removeRaises fs e hs ht]
    exact ⟨rfl, rfl, rfl, rfl⟩
  · intro segs info e hs ht hto htl
    rw [transcribePost_translate_error fl tl b removeRaises fs segs info e
      hs ht hto htl]
    exact ⟨rfl, rfl, rfl, rfl⟩

/-- Witness for C3 amended on a concrete transcription failure. -/
theorem C3_amended_500_bodies_witness :
    (transcribePost ⟨true, none, none⟩
        ⟨.ok, "t3.mp3", .error ⟨"boom", "tb3"⟩, .ok "x"⟩ false []).status
      = 500 ∧
    Json.lookup (transcribePost ⟨true, none, none⟩
        ⟨.ok, "t3.mp3", .error ⟨"boom", "tb3"⟩, .ok "x"⟩ false []).body
      "trace" = some (Json.str "tb3") :=
  ⟨((C3_amended_500_bodies ⟨true, none, none⟩
      ⟨.ok, "t3.mp3", .error ⟨"boom", "tb3"⟩, .ok "x"⟩ false [] rfl).2.1
      ⟨"boom", "tb3"⟩ rfl rfl).1,
   ((C3_amended_500_bodies ⟨true, none, none⟩
      ⟨.ok, "t3.mp3", .error ⟨"boom", "tb3"⟩, .ok "x"⟩ false [] rfl).2.1
      ⟨"boom", "tb3"⟩ rfl rfl).2.2.2⟩

/-- C7: the language of the response is the value of the info language
attribute when that attribute is present, otherwise the from_language hint;
and when translation is invoked, the source-language argument passed to the
translation client is that detected/fallback language, or the sentinel auto
when it is unavailable (falsy). -/
theorem C7_language_and_translation_source (req : PostRequest) (b : Backend)
    (removeRaises : Bool) (fs : List String) (segs : List Segment)
    (info : TransInfo)
    (ha : req.hasAudioFile = true) (hs : b.save = .ok)
    (ht : b.transcribeResult = .ok (segs, info)) :
    (∀ v, info.language_attr = some v →
      detectedLanguageOf info req.from_language = v) ∧
    (info.language_attr = none →
      detectedLanguageOf info req.from_language = req.from_language) ∧
    (pyTruthy req.to_language = false →
      Json.lookup (transcribePost req b removeRaises fs).body "language" =
        some (optStrJson (detectedLanguageOf info req.from_language))) ∧
    (∀ t, b.translateResult = .ok t →
      Json.lookup (transcribePost req b removeRaises fs).body "language" =
        some (optStrJson (detectedLanguageOf info req.from_language))) ∧
    (pyTruthy req.to_language = true →
      (transcribePost req b removeRaises fs).translateSrcArg =
        some (srcOrAuto (detectedLanguageOf info req.from_language))) ∧
    (pyTruthy (detectedLanguageOf info req.from_language) = false →
      srcOrAuto (detectedLanguageOf info req.from_language) = "auto") := by
  obtain ⟨a, fl, tl⟩ := req
  simp only [PostRequest.hasAudioFile] at ha
  simp only [PostRequest.to_language, PostRequest.from_language]
  subst ha
  refine ⟨?_, ?_, ?_, ?_, ?_, ?_⟩
  · intro v hv
    simp [detectedLanguageOf, hv]
  · intro hv
    simp [detectedLanguageOf, hv]
  · intro hto
    rw [transcribePost_success_no_translate fl tl b removeRaises fs segs
      info hs ht hto]
    rfl
  · intro t htl
    cases hto : pyTruthy tl
    · rw [transcribePost_success_no_translate fl tl b removeRaises fs segs
        info hs ht hto]
      rfl
    · rw [transcribePost_success_translate fl tl b removeRaises fs segs
        info t hs ht hto htl]
      rfl
  · intro hto
    cases htl : b.translateResult with
    | error e =>
        rw [transcribePost_translate_error fl tl b removeRaises fs segs
          info e hs ht hto htl]
    | ok t =>
        rw [transcribePost_success_translate fl tl b removeRaises fs segs
          info t hs ht hto htl]
  · intro hd
    unfold srcOrAuto
    cases hv : detectedLanguageOf info fl with
    | none => rfl
    | some s =>
        rw [hv] at hd
        simp only [pyTruthy] at hd
        have hd2 : s.isEmpty = true := by
          revert hd
          cases s.isEmpty <;> simp
        simp [hd2]

/-- Witness for C7 at a concrete detected language and translation request. -/
theorem C7_language_and_translation_source_witness :
    Json.lookup (transcribePost ⟨true, some "fr", some "ja"⟩
        ⟨.ok, "t7.mp3", .ok ([], ⟨some (some "en")⟩), .ok "y"⟩ false
        []).body "language" = some (optStrJson (some "en")) ∧
    (transcribePost ⟨true, some "fr", some "ja"⟩
        ⟨.ok, "t7.mp3", .ok ([], ⟨some (some "en")⟩), .ok "y"⟩ false
        []).translateSrcArg = some "en" :=
  ⟨((C7_language_and_translation_source ⟨true, some "fr", some "ja"⟩
      ⟨.ok, "t7.mp3", .ok ([], ⟨some (some "en")⟩), .ok "y"⟩ false []
      [] ⟨some (some "en")⟩ rfl rfl rfl).2.2.2.1 "y" rfl),
   ((C7_language_and_translation_source ⟨true, some "fr", some "ja"⟩
      ⟨.ok, "t7.mp3", .ok ([], ⟨some (some "en")⟩), .ok "y"⟩ false []
      [] ⟨some (some "en")⟩ rfl rfl rfl).2.2.2.2.1 rfl)⟩

/-- C9: a to_language form field that is present but empty is falsy, so the
request behaves exactly as if the field were absent: the whole handler
result is the same, the translation client is never invoked, and on the
successful path translated_text is null. -/
theorem C9_empty_to_language_like_absent (req : PostRequest) (b : Backend)
    (removeRaises : Bool) (fs : List String)
    (h : req.to_language = some "") :
    transcribePost req b removeRaises fs =
      transcribePost ⟨req.hasAudioFile, req.from_language, none⟩ b
        removeRaises fs ∧
    (transcribePost req b removeRaises fs).translateCalls = 0 ∧
    (∀ segs info, req.hasAudioFile = true → b.save = .ok →
      b.transcribeResult = .ok (segs, info) →
      Json.lookup (transcribePost req b removeRaises fs).body
        "translated_text" = some Json.null) := by
  obtain ⟨a, fl, tl⟩ := req
  obtain ⟨sv, tn, tr, tlr⟩ := b
  simp only [PostRequest.to_language] at h
  subst h
  refine ⟨rfl, ?_, ?_⟩
  · cases a
    · rfl
    · cases sv with
      | ok =>
          cases tr with
          | error e => rfl
          | ok p => obtain ⟨segs, info⟩ := p; rfl
      | failCreate e => rfl
      | failWrite e => rfl
  · intro segs info ha hs ht
    simp only [PostRequest.hasAudioFile] at ha
    simp only [Backend.save] at hs
    simp only [Backend.transcribeResult] at ht
    subst ha hs ht
    rfl

/-- Witness for C9 at a concrete request whose to_language is the empty
string. -/
theorem C9_empty_to_language_like_absent_witness :
    (transcribePost ⟨true, none, some ""⟩
        ⟨.ok, "t9.mp3", .ok ([], ⟨none⟩), .ok "z"⟩ false
        []).translateCalls = 0 ∧
    Json.lookup (transcribePost ⟨true, none, some ""⟩
        ⟨.ok, "t9.mp3", .ok ([], ⟨none⟩), .ok "z"⟩ false []).body
      "translated_text" = some Json.null :=
  ⟨(C9_empty_to_language_like_absent ⟨true, none, some ""⟩
      ⟨.ok, "t9.mp3", .ok ([], ⟨none⟩), .ok "z"⟩ false [] rfl).2.1,
   (C9_empty_to_language_like_absent ⟨true, none, some ""⟩
      ⟨.ok, "t9.mp3", .ok ([], ⟨none⟩), .ok "z"⟩ false [] rfl).2.2
      [] ⟨none⟩ rfl rfl rfl⟩

/-- Witness for C6 amended at a concrete non-accelerated host. -/
theorem C6_amended_profile_device_consistent_witness :
    (startupConfig ⟨false, none⟩).2 = 2 ∧
    ((startupConfig ⟨false, none⟩).1 = ("large-v3-turbo", "cuda") ∨
      (startupConfig ⟨false, none⟩).1 = ("tiny", "cpu")) :=
  C6_amended_profile_device_consistent ⟨false, none⟩
